import Mathlib

/-!
# Shallow embedding of `src/battery_monitor.c`

The monitor polls the ACPI battery files, resolves a `charging_state`, and
dispatches on it: showing/clearing an X11 sign, playing alert sounds, and
starting/stopping an external shutdown command.

Modelling conventions:
* A `Snapshot` carries the results of the field reads the C getters perform
  (`get_string_field` returning -1 is modelled as `none`; the integer getters
  return -1 on problems, which the snapshot carries directly).
* The side effects of one poll cycle (pipe commands to the sign-control
  routine, detached thread spawns, writes to the shutdown flag, stderr logs)
  are collected as an ordered `List Event`, in the order the C statements
  execute them.
* The sign state (`*sign_up` together with the static `cur_sign` of
  `x11_sign_display`) is threaded explicitly as a `SignState`.
* The shutdown flag (`shutdown_launched`, passed by pointer to
  `start_shutdown` / `stop_shutdown`) is recovered from a trace by folding the
  `setFlag` events it contains (`flagAfter`).
-/

namespace BatteryMonitor

/-! ## Constants (`#define`s of the C source) -/

def MSG_BATTERY_CHARGED : Nat := 0
def MSG_LOW_BATTERY : Nat := 1
def MSG_LOWCAP_WARNING : Nat := 2
def MSG_REMCAP_WARNING : Nat := 3
def MSG_NOTDET_WARNING : Nat := 4
def MSG_CHST_READ_WARNING : Nat := 5
def MSG_CHST_UNK_WARNING : Nat := 6
def MSG_REMOVE_SIGN : Nat := 10

def TEMP_SIGN_TIME : Int := 5
def CHECK_PERIOD_MIN : Int := 1
def CHECK_PERIOD_MAX : Int := 24 * 3600
def CHECK_PERIOD_DEFAULT : Int := 20
def SAFETY_TIME : Int := 60

/-- The `x11_signs` message array, indexed by the `MSG_*` slots. -/
def x11_signs : Nat → String
  | 0 => "Battery charged"
  | 1 => "LOW BATTERY!"
  | 2 => "Warning: unable to read low capacity limit"
  | 3 => "Warning: unable to read remaining capacity"
  | 4 => "Warning: battery not detected"
  | 5 => "Warning: unable to read charging state"
  | 6 => "Warning: unknown charging state"
  | _ => ""

/-! ## Data model -/

/-- The `charging_state` enumeration of the C source. -/
inductive charging_state
  | CHST_INVALID
  | CHST_CHARGING
  | CHST_CHARGED
  | CHST_DISCHARGING
  | CHST_NO_BAT
  | CHST_OTHER
deriving DecidableEq, Repr

/-- The `alert_type` enumeration of the C source. -/
inductive alert_type
  | ALERT_LOWBAT
  | ALERT_STARTSHUTDOWN
  | ALERT_STOPSHUTDOWN
deriving DecidableEq, Repr

/-- One snapshot of the fields read from `/proc/acpi/battery/BAT1/{info,state}`.
`presentField` / `chargingStateField` are `none` when the file cannot be
opened, the field is missing, or `sscanf` fails (`get_string_field` = -1);
otherwise they hold the scanned token.  The integer getters of the C return
-1 on any problem, so the integer fields carry that convention directly. -/
structure Snapshot where
  presentField : Option String
  chargingStateField : Option String
  design_capacity_low : Int
  remaining_capacity : Int
deriving DecidableEq, Repr

/-- `get_present`: scan the `present:` field of the state file; any read
failure yields `false`, otherwise compare the token against `"yes"`. -/
def get_present (s : Snapshot) : Bool :=
  match s.presentField with
  | none => false
  | some p => if p = "yes" then true else false

/-- `get_design_capacity_low` (reads `design capacity low:` from the info
file; -1 on problems, carried by the snapshot). -/
def get_design_capacity_low (s : Snapshot) : Int := s.design_capacity_low

/-- `get_remaining_capacity` (reads `remaining capacity:` from the state
file; -1 on problems, carried by the snapshot). -/
def get_remaining_capacity (s : Snapshot) : Int := s.remaining_capacity

/-- `get_charging_state`: `CHST_NO_BAT` when not present, `CHST_INVALID` when
the `charging state:` token cannot be read, otherwise match the token. -/
def get_charging_state (s : Snapshot) : charging_state :=
  if ! get_present s then charging_state.CHST_NO_BAT
  else
    match s.chargingStateField with
    | none => charging_state.CHST_INVALID
    | some st =>
      if st = "charging" then charging_state.CHST_CHARGING
      else if st = "charged" then charging_state.CHST_CHARGED
      else if st = "discharging" then charging_state.CHST_DISCHARGING
      else charging_state.CHST_OTHER

/-! ## Side effects as events -/

/-- Detached threads the program spawns (`pthread_create_dt` targets). -/
inductive TaskKind
  | startShutdownCmd
  | stopShutdownCmd
  | soundTask (a : alert_type)
  | tempSign (sign : Nat)
deriving DecidableEq, Repr

/-- One observable side effect, in program order:
`sendCommand` is a byte written to the sign-control pipe
(`x11_send_command`), `spawnTask` a detached thread creation, `setFlag` a
write to the `bool` behind `already_active` / `still_active`, and `log` an
`fprintf(stderr, ...)`. -/
inductive Event
  | sendCommand (c : Nat)
  | spawnTask (t : TaskKind)
  | setFlag (b : Bool)
  | log (s : String)
deriving DecidableEq, Repr

/-- The value of the shutdown flag after a trace of events has executed,
starting from `b`: each `setFlag` event overwrites it. -/
def flagAfter (b : Bool) (tr : List Event) : Bool :=
  tr.foldl (fun acc e => match e with | Event.setFlag v => v | _ => acc) b

/-! ## Sign display (`x11_sign_display` / `x11_sign_undisplay`) -/

/-- The sign-related mutable state: the `bool` behind `*sign_up`
(`x11_sign_active` in `main`) and the `static char cur_sign` of
`x11_sign_display`. -/
structure SignState where
  sign_up : Bool
  cur_sign : Nat
deriving DecidableEq, Repr

/-- `x11_sign_undisplay`: if a sign is up, send `MSG_REMOVE_SIGN` and lower
the flag; otherwise do nothing. -/
def x11_sign_undisplay (st : SignState) : SignState × List Event :=
  if st.sign_up then
    ({ st with sign_up := false }, [Event.sendCommand MSG_REMOVE_SIGN])
  else (st, [])

/-- `x11_sign_display`: no-op when the same sign is already up; otherwise
undisplay any current sign, send the new sign, raise the flag and record
the sign in `cur_sign`. -/
def x11_sign_display (sign : Nat) (st : SignState) : SignState × List Event :=
  if st.sign_up && sign == st.cur_sign then (st, [])
  else
    let p := if st.sign_up then x11_sign_undisplay st else (st, [])
    ({ sign_up := true, cur_sign := sign }, p.2 ++ [Event.sendCommand sign])

/-- `x11_sign_display_temp`: spawn the detached `x11_temp_sign_control`
thread; no synchronous change to the sign state. -/
def x11_sign_display_temp (sign : Nat) (st : SignState) : SignState × List Event :=
  (st, [Event.spawnTask (TaskKind.tempSign sign)])

/-- The interleaving traced by the temporary-sign thread
(`x11_temp_sign_control`: display `x`, sleep `TEMP_SIGN_TIME`, undisplay)
when an external `x11_sign_display y` lands inside the dwell window:
show `x`, then show `y`, then run the thread's trailing undisplay. -/
def tempInterrupted (x y : Nat) (st : SignState) : SignState :=
  (x11_sign_undisplay (x11_sign_display y (x11_sign_display x st).1).1).1

/-! ## Sound and shutdown -/

/-- `emit_alert`: spawn a detached `emit_sound_routine` thread for the alert. -/
def emit_alert (al : alert_type) : List Event :=
  [Event.spawnTask (TaskKind.soundTask al)]

/-- `start_shutdown`: if the flag is already set, return immediately;
otherwise spawn `start_shutdown_routine`, then set the flag, then emit the
start-shutdown alert — in that statement order. -/
def start_shutdown_trace (already_active : Bool) : List Event :=
  if already_active then []
  else
    [Event.spawnTask TaskKind.startShutdownCmd, Event.setFlag true]
      ++ emit_alert alert_type.ALERT_STARTSHUTDOWN

/-- `stop_shutdown`: if the flag is already clear, return immediately;
otherwise spawn `stop_shutdown_routine`, then clear the flag, then emit the
stop-shutdown alert — in that statement order. -/
def stop_shutdown_trace (still_active : Bool) : List Event :=
  if still_active then
    [Event.spawnTask TaskKind.stopShutdownCmd, Event.setFlag false]
      ++ emit_alert alert_type.ALERT_STOPSHUTDOWN
  else []

/-- Body of the detached `start_shutdown_routine` thread: build the command
line and run it with `system`; on failure only log.  It never touches the
shutdown flag, so its trace contains no `setFlag`. -/
def start_shutdown_routine_trace (system_ok : Bool) : List Event :=
  if system_ok then [] else [Event.log "Warning: unable to launch shutdown"]

/-- Body of the detached `stop_shutdown_routine` thread: analogous. -/
def stop_shutdown_routine_trace (system_ok : Bool) : List Event :=
  if system_ok then [] else [Event.log "Warning: unable to stop shutdown"]

/-- `start_shutdown` called twice in a row with no intervening
`stop_shutdown`: the concatenated event trace of both calls, the second call
seeing the flag value left by the first. -/
def startTwiceTrace (b : Bool) : List Event :=
  start_shutdown_trace b
    ++ start_shutdown_trace (flagAfter b (start_shutdown_trace b))

/-! ## The main poll loop -/

/-- The loop-local state of `main`: previous cycle's charging state, the
warning counter, the shutdown flag, and the sign state. -/
structure LoopState where
  prevstate : charging_state
  warnnum : Int
  shutdown_launched : Bool
  sign : SignState
deriving DecidableEq, Repr

/-- The state-entry effect of the `CHST_DISCHARGING` branch:
`if (CHST_DISCHARGING != prevstate) x11_sign_undisplay(&x11_sign_active);`. -/
def dischargingEntry (prevstate : charging_state) (sg : SignState) :
    SignState × List Event :=
  if prevstate ≠ charging_state.CHST_DISCHARGING then x11_sign_undisplay sg
  else (sg, [])

/-- The big `switch` of `main`, one poll cycle after the charging state has
been resolved: returns the new loop state (with `prevstate` recorded) and
the events of the cycle in statement order. -/
def dispatch (period : Int) (curstate : charging_state) (snap : Snapshot)
    (st : LoopState) : LoopState × List Event :=
  match curstate with
  | charging_state.CHST_DISCHARGING =>
    let e := dischargingEntry st.prevstate st.sign
    let lowlimit := get_design_capacity_low snap
    if lowlimit = -1 then
      ({ st with
          prevstate := curstate
          sign := (x11_sign_display_temp MSG_LOWCAP_WARNING e.1).1 },
       e.2 ++ [Event.log (x11_signs MSG_LOWCAP_WARNING)]
         ++ (x11_sign_display_temp MSG_LOWCAP_WARNING e.1).2)
    else
      let remcap := get_remaining_capacity snap
      if remcap = -1 then
        ({ st with
            prevstate := curstate
            sign := (x11_sign_display_temp MSG_REMCAP_WARNING e.1).1 },
         e.2 ++ [Event.log (x11_signs MSG_REMCAP_WARNING)]
           ++ (x11_sign_display_temp MSG_REMCAP_WARNING e.1).2)
      else if remcap < lowlimit then
        let d := x11_sign_display MSG_LOW_BATTERY e.1
        if SAFETY_TIME ≤ st.warnnum * period ∧ st.shutdown_launched = false then
          let tr := start_shutdown_trace st.shutdown_launched
          ({ prevstate := curstate
             warnnum := st.warnnum
             shutdown_launched := flagAfter st.shutdown_launched tr
             sign := d.1 },
           e.2 ++ d.2 ++ tr)
        else
          ({ prevstate := curstate
             warnnum := st.warnnum + 1
             shutdown_launched := st.shutdown_launched
             sign := d.1 },
           e.2 ++ d.2 ++ emit_alert alert_type.ALERT_LOWBAT)
      else
        ({ st with prevstate := curstate, sign := e.1 }, e.2)
  | charging_state.CHST_CHARGED =>
    let d := x11_sign_display MSG_BATTERY_CHARGED st.sign
    let tr := stop_shutdown_trace st.shutdown_launched
    ({ prevstate := curstate
       warnnum := 0
       shutdown_launched := flagAfter st.shutdown_launched tr
       sign := d.1 },
     d.2 ++ tr)
  | charging_state.CHST_CHARGING =>
    let u := x11_sign_undisplay st.sign
    let tr := stop_shutdown_trace st.shutdown_launched
    ({ prevstate := curstate
       warnnum := 0
       shutdown_launched := flagAfter st.shutdown_launched tr
       sign := u.1 },
     u.2 ++ tr)
  | charging_state.CHST_NO_BAT =>
    let u := x11_sign_undisplay st.sign
    let tr := stop_shutdown_trace st.shutdown_launched
    ({ prevstate := curstate
       warnnum := 0
       shutdown_launched := flagAfter st.shutdown_launched tr
       sign := u.1 },
     u.2 ++ tr ++ [Event.log (x11_signs MSG_NOTDET_WARNING)])
  | charging_state.CHST_INVALID =>
    let u := x11_sign_undisplay st.sign
    let tr := stop_shutdown_trace st.shutdown_launched
    ({ prevstate := curstate
       warnnum := 0
       shutdown_launched := flagAfter st.shutdown_launched tr
       sign := (x11_sign_display_temp MSG_CHST_READ_WARNING u.1).1 },
     u.2 ++ tr ++ [Event.log (x11_signs MSG_CHST_READ_WARNING)]
       ++ (x11_sign_display_temp MSG_CHST_READ_WARNING u.1).2)
  | charging_state.CHST_OTHER =>
    ({ st with
        prevstate := curstate
        sign := (x11_sign_display_temp MSG_CHST_UNK_WARNING st.sign).1 },
     [Event.log (x11_signs MSG_CHST_UNK_WARNING)]
       ++ (x11_sign_display_temp MSG_CHST_UNK_WARNING st.sign).2)

/-- One full poll cycle: resolve the charging state, then dispatch on it. -/
def cycle (period : Int) (snap : Snapshot) (st : LoopState) :
    LoopState × List Event :=
  dispatch period (get_charging_state snap) snap st

/-- The initial loop state of `main` (`prevstate = CHST_INVALID`,
`warnnum = 0`, no shutdown, no sign up, `cur_sign` still `0`). -/
def initLoop : LoopState :=
  { prevstate := charging_state.CHST_INVALID
    warnnum := 0
    shutdown_launched := false
    sign := { sign_up := false, cur_sign := 0 } }

/-- Run `n` consecutive poll cycles on the same snapshot. -/
def stepN (period : Int) (snap : Snapshot) (st : LoopState) : Nat → LoopState
  | 0 => st
  | Nat.succ n => stepN period snap (cycle period snap st).1 n

/-- The events of the `k`-th cycle (1-indexed) of a run on a fixed snapshot. -/
def cycleEvents (period : Int) (snap : Snapshot) (st : LoopState) (k : Nat) :
    List Event :=
  (cycle period snap (stepN period snap st (k - 1))).2

/-- A snapshot on which every cycle resolves `CHST_DISCHARGING` with the
remaining capacity below the design-low threshold. -/
def lowSnap : Snapshot :=
  { presentField := some "yes"
    chargingStateField := some "discharging"
    design_capacity_low := 100
    remaining_capacity := 50 }

/-- A snapshot whose charging-state token is unrecognized (`CHST_OTHER`). -/
def otherSnap : Snapshot :=
  { presentField := some "yes"
    chargingStateField := some "plugged"
    design_capacity_low := 100
    remaining_capacity := 50 }

/-! ## Argument parsing (`parse_args`, check-period handling) -/

/-- Outcome of the `strtol` call on the check-period argument: the value and
whether the end pointer landed exactly at the end of the string
(`end == begin + strlen(begin)`, i.e. the argument parsed fully). -/
structure StrtolResult where
  value : Int
  endAtLength : Bool
deriving DecidableEq, Repr

/-- The check-period handling of `parse_args`: `none` models the argument
being omitted (`argc < ARG_NUM_MAX`), in which case the default applies;
otherwise the period is rejected (process exits with failure) unless the
argument parsed fully and lies in `[CHECK_PERIOD_MIN, CHECK_PERIOD_MAX]`. -/
def parse_check_period : Option StrtolResult → Except Unit Int
  | none => Except.ok CHECK_PERIOD_DEFAULT
  | some r =>
    if r.endAtLength = false ∨ r.value < CHECK_PERIOD_MIN
        ∨ CHECK_PERIOD_MAX < r.value then
      Except.error ()
    else Except.ok r.value

/-! ## Helper lemmas -/

/-- `x11_sign_display` always leaves the requested sign up: in the no-op
branch the same sign was already up, in the other branches it is raised. -/
theorem x11_sign_display_result (n : Nat) (s : SignState) :
    (x11_sign_display n s).1 = { sign_up := true, cur_sign := n } := by
  cases s with
  | mk up cur =>
    cases up with
    | false => simp [x11_sign_display]
    | true =>
      by_cases h : n = cur
      · subst h; simp [x11_sign_display]
      · simp [x11_sign_display, h]

/-- Folding the events of `stop_shutdown` always leaves the flag false:
either it was false and nothing happens, or the `setFlag false` lands. -/
theorem flagAfter_stop_shutdown (b : Bool) :
    flagAfter b (stop_shutdown_trace b) = false := by
  cases b <;> rfl

/-! ## Claim theorems -/

/-- C1, counterexample: a `ShowTemporary(LOWCAP_WARNING)` whose dwell window
is interrupted by `Show(LOW_BATTERY)` does NOT leave the display showing
`LOW_BATTERY` after the temporary thread's trailing clear: the trailing
`x11_sign_undisplay` tests only the shared `sign_up` flag and removes the
interim sign. -/
theorem c1_counterexample :
    ¬ ((tempInterrupted MSG_LOWCAP_WARNING MSG_LOW_BATTERY
          { sign_up := false, cur_sign := 0 }).sign_up = true ∧
       (tempInterrupted MSG_LOWCAP_WARNING MSG_LOW_BATTERY
          { sign_up := false, cur_sign := 0 }).cur_sign = MSG_LOW_BATTERY) := by
  decide

/-- C1, amended: when a `ShowTemporary(x)` dwell window is interrupted by an
external `Show(y)`, the temporary thread's trailing clear removes whatever
sign is up — for every `x`, `y` and starting sign state the display ends
hidden (`sign_up = false`), not showing `y`. -/
theorem c1_trailing_clear_removes_interim (x y : Nat) (sg : SignState) :
    tempInterrupted x y sg = { sign_up := false, cur_sign := y } := by
  simp [tempInterrupted, x11_sign_display_result, x11_sign_undisplay]

/-- C2, counterexample: with period 10 s and `SAFETY_TIME` 60 s, starting
from `warnnum = 0` and no shutdown, the 6th consecutive low-battery cycle
does NOT spawn the shutdown-start task (the claim says it does). -/
theorem c2_counterexample :
    Event.spawnTask TaskKind.startShutdownCmd ∉
      cycleEvents 10 lowSnap initLoop 6 := by
  decide

/-- C2, amended: with period 10 s and `SAFETY_TIME` 60 s, the shutdown-start
task is spawned exactly on the 7th consecutive low-battery cycle — none of
cycles 1..6 spawns it (after cycle 6 the counter has only just reached 6),
and cycle 7, which sees `6 * 10 ≥ 60`, does. -/
theorem c2_shutdown_on_seventh_cycle :
    Event.spawnTask TaskKind.startShutdownCmd ∉
      cycleEvents 10 lowSnap initLoop 1 ∧
    Event.spawnTask TaskKind.startShutdownCmd ∉
      cycleEvents 10 lowSnap initLoop 2 ∧
    Event.spawnTask TaskKind.startShutdownCmd ∉
      cycleEvents 10 lowSnap initLoop 3 ∧
    Event.spawnTask TaskKind.startShutdownCmd ∉
      cycleEvents 10 lowSnap initLoop 4 ∧
    Event.spawnTask TaskKind.startShutdownCmd ∉
      cycleEvents 10 lowSnap initLoop 5 ∧
    (stepN 10 lowSnap initLoop 6).warnnum = 6 ∧
    Event.spawnTask TaskKind.startShutdownCmd ∈
      cycleEvents 10 lowSnap initLoop 7 := by
  decide

/-- C3, counterexample: a cycle resolving `CHST_OTHER` (a non-`Discharging`
state) does NOT reset `warnnum` to 0 — it is left unchanged at 3. -/
theorem c3_counterexample :
    ¬ ((cycle 10 otherSnap
          { prevstate := charging_state.CHST_INVALID
            warnnum := 3
            shutdown_launched := false
            sign := { sign_up := false, cur_sign := 0 } }).1.warnnum = 0) := by
  decide

/-- C3, amended: `warnnum` is reset to 0 in every cycle resolving
`CHST_CHARGED`, `CHST_CHARGING`, `CHST_NO_BAT` or `CHST_INVALID`; a
`CHST_OTHER` cycle leaves it unchanged; and a `CHST_DISCHARGING` cycle that
reaches the low-battery branch while shutdown is already active increments
it rather than resetting it. -/
theorem c3_warncounter_policy (p : Int) (snap : Snapshot) (st : LoopState) :
    (dispatch p charging_state.CHST_CHARGED snap st).1.warnnum = 0 ∧
    (dispatch p charging_state.CHST_CHARGING snap st).1.warnnum = 0 ∧
    (dispatch p charging_state.CHST_NO_BAT snap st).1.warnnum = 0 ∧
    (dispatch p charging_state.CHST_INVALID snap st).1.warnnum = 0 ∧
    (dispatch p charging_state.CHST_OTHER snap st).1.warnnum = st.warnnum ∧
    (st.shutdown_launched = true → get_design_capacity_low snap ≠ -1 →
      get_remaining_capacity snap ≠ -1 →
      get_remaining_capacity snap < get_design_capacity_low snap →
      (dispatch p charging_state.CHST_DISCHARGING snap st).1.warnnum
        = st.warnnum + 1) := by
  refine ⟨rfl, rfl, rfl, rfl, rfl, ?_⟩
  intro hsl hl hr hlt
  simp [dispatch, hl, hr, hlt, hsl]

/-- C3, witness for the amended theorem at a concrete cycle. -/
theorem c3_witness :
    (dispatch 10 charging_state.CHST_CHARGED lowSnap
        { prevstate := charging_state.CHST_DISCHARGING
          warnnum := 3
          shutdown_launched := true
          sign := { sign_up := true, cur_sign := 1 } }).1.warnnum = 0 ∧
    (dispatch 10 charging_state.CHST_DISCHARGING lowSnap
        { prevstate := charging_state.CHST_DISCHARGING
          warnnum := 3
          shutdown_launched := true
          sign := { sign_up := true, cur_sign := 1 } }).1.warnnum = 3 + 1 :=
  ⟨(c3_warncounter_policy 10 lowSnap _).1,
   (c3_warncounter_policy 10 lowSnap _).2.2.2.2.2 rfl (by decide) (by decide)
     (by decide)⟩

/-- C4, counterexample: in `start_shutdown` from an inactive flag, the
`setFlag true` write does NOT precede the spawn of the shutdown-command
task — the `pthread_create` comes first in statement order. -/
theorem c4_counterexample :
    ¬ ((start_shutdown_trace false).indexOf (Event.setFlag true) <
       (start_shutdown_trace false).indexOf
         (Event.spawnTask TaskKind.startShutdownCmd)) := by
  decide

/-- C4, amended: in both `start_shutdown` and `stop_shutdown` the flag
transition happens synchronously within the call, immediately AFTER the
external-command task is spawned and before the call returns; and the
spawned routines (`start_shutdown_routine` / `stop_shutdown_routine`)
contain no flag write for either outcome of `system`, so a failed external
invocation never changes the flag afterwards. -/
theorem c4_flag_set_after_spawn (ok b : Bool) :
    (start_shutdown_trace false).indexOf
        (Event.spawnTask TaskKind.startShutdownCmd) <
      (start_shutdown_trace false).indexOf (Event.setFlag true) ∧
    Event.setFlag true ∈ start_shutdown_trace false ∧
    flagAfter false (start_shutdown_trace false) = true ∧
    (stop_shutdown_trace true).indexOf
        (Event.spawnTask TaskKind.stopShutdownCmd) <
      (stop_shutdown_trace true).indexOf (Event.setFlag false) ∧
    Event.setFlag false ∈ stop_shutdown_trace true ∧
    flagAfter true (stop_shutdown_trace true) = false ∧
    flagAfter b (start_shutdown_routine_trace ok) = b ∧
    flagAfter b (stop_shutdown_routine_trace ok) = b := by
  cases ok <;> cases b <;> decide

/-- C5, counterexample: with the flag already true, two successive
`start_shutdown` calls spawn the shutdown-command task ZERO times, not
exactly once. -/
theorem c5_counterexample :
    ¬ ((startTwiceTrace true).count
        (Event.spawnTask TaskKind.startShutdownCmd) = 1) := by
  decide

/-- C5, amended: two successive `start_shutdown` calls with no intervening
`stop_shutdown` spawn the shutdown-command task exactly once when the flag
was initially false and never when it was already true; and the second call
is a complete no-op (it produces no events at all, so the flag and all
other state are unchanged). -/
theorem c5_start_twice (b : Bool) :
    (startTwiceTrace b).count (Event.spawnTask TaskKind.startShutdownCmd)
        = (if b then 0 else 1) ∧
    start_shutdown_trace (flagAfter b (start_shutdown_trace b)) = [] := by
  cases b <;> decide

/-- C6: on a cycle resolving `CHST_DISCHARGING`, the state-entry effect
issues nothing when the previous state was also `CHST_DISCHARGING`, and is
exactly an invocation of `x11_sign_undisplay` (which sends
`MSG_REMOVE_SIGN` whenever a sign is up) when it was anything else. -/
theorem c6_entry_clear (prev : charging_state) (sg : SignState) :
    (prev = charging_state.CHST_DISCHARGING →
      dischargingEntry prev sg = (sg, [])) ∧
    (prev ≠ charging_state.CHST_DISCHARGING →
      dischargingEntry prev sg = x11_sign_undisplay sg ∧
      (sg.sign_up = true →
        Event.sendCommand MSG_REMOVE_SIGN ∈ (dischargingEntry prev sg).2)) := by
  constructor
  · intro h
    simp [dischargingEntry, h]
  · intro h
    refine ⟨by simp [dischargingEntry, h], ?_⟩
    intro hup
    simp [dischargingEntry, h, x11_sign_undisplay, hup]

/-- C6, witness: entering `CHST_DISCHARGING` from itself issues nothing;
entering it from `CHST_CHARGING` with a sign up sends `MSG_REMOVE_SIGN`. -/
theorem c6_witness :
    dischargingEntry charging_state.CHST_DISCHARGING
        { sign_up := true, cur_sign := 1 } =
      ({ sign_up := true, cur_sign := 1 }, []) ∧
    Event.sendCommand MSG_REMOVE_SIGN ∈
      (dischargingEntry charging_state.CHST_CHARGING
        { sign_up := true, cur_sign := 1 }).2 :=
  ⟨(c6_entry_clear charging_state.CHST_DISCHARGING _).1 rfl,
   ((c6_entry_clear charging_state.CHST_CHARGING _).2 (by decide)).2 rfl⟩

/-- C7: `get_charging_state` returns `CHST_NO_BAT` whenever the presence
field evaluates to false, regardless of every other field; and returns
`CHST_OTHER` whenever the battery is present and the charging-state token
reads successfully but is none of "charging", "charged", "discharging". -/
theorem c7_charging_state_resolution (snap : Snapshot) (s : String) :
    (get_present snap = false →
      get_charging_state snap = charging_state.CHST_NO_BAT) ∧
    (get_present snap = true → snap.chargingStateField = some s →
      s ≠ "charging" → s ≠ "charged" → s ≠ "discharging" →
      get_charging_state snap = charging_state.CHST_OTHER) := by
  constructor
  · intro h
    simp [get_charging_state, h]
  · intro hp hf h1 h2 h3
    simp [get_charging_state, hp, hf, h1, h2, h3]

/-- C7, witness: a snapshot with an unreadable presence field resolves to
`CHST_NO_BAT`; a present battery with an unrecognized token to `CHST_OTHER`. -/
theorem c7_witness :
    get_charging_state ⟨none, some "charging", 5, 5⟩ =
      charging_state.CHST_NO_BAT ∧
    get_charging_state ⟨some "yes", some "unknown", 5, 5⟩ =
      charging_state.CHST_OTHER :=
  ⟨(c7_charging_state_resolution ⟨none, some "charging", 5, 5⟩ "x").1
      (by decide),
   (c7_charging_state_resolution ⟨some "yes", some "unknown", 5, 5⟩
      "unknown").2 (by decide) rfl (by decide) (by decide) (by decide)⟩

/-- C8: `x11_sign_display` is idempotent — with the same sign already up it
issues no command and changes no state; with a different sign up it first
sends `MSG_REMOVE_SIGN` (undisplaying the old sign) and then the new sign. -/
theorem c8_show_idempotent (sign : Nat) (sg : SignState) :
    (sg.sign_up = true → sign = sg.cur_sign →
      x11_sign_display sign sg = (sg, [])) ∧
    (sg.sign_up = true → sign ≠ sg.cur_sign →
      x11_sign_display sign sg =
        ({ sign_up := true, cur_sign := sign },
         [Event.sendCommand MSG_REMOVE_SIGN, Event.sendCommand sign])) := by
  constructor
  · intro hup he
    simp [x11_sign_display, hup, he]
  · intro hup hne
    simp [x11_sign_display, x11_sign_undisplay, hup, hne]

/-- C8, witness: re-showing sign 3 while sign 3 is up is a no-op; showing
sign 4 while sign 3 is up removes the old sign first. -/
theorem c8_witness :
    x11_sign_display 3 { sign_up := true, cur_sign := 3 } =
      ({ sign_up := true, cur_sign := 3 }, []) ∧
    x11_sign_display 4 { sign_up := true, cur_sign := 3 } =
      ({ sign_up := true, cur_sign := 4 },
       [Event.sendCommand MSG_REMOVE_SIGN, Event.sendCommand 4]) :=
  ⟨(c8_show_idempotent 3 ⟨true, 3⟩).1 rfl rfl,
   (c8_show_idempotent 4 ⟨true, 3⟩).2 rfl (by decide)⟩

/-- C9: an explicit check-period argument is accepted exactly when `strtol`
consumed the whole string and the value lies in
`[CHECK_PERIOD_MIN, CHECK_PERIOD_MAX] = [1, 86400]`; every other explicit
argument makes `parse_args` exit with failure; an omitted argument yields
the default of 20 seconds. -/
theorem c9_check_period (v : Int) (e : Bool) :
    parse_check_period none = Except.ok CHECK_PERIOD_DEFAULT ∧
    CHECK_PERIOD_DEFAULT = 20 ∧ CHECK_PERIOD_MIN = 1 ∧
    CHECK_PERIOD_MAX = 86400 ∧
    (parse_check_period (some { value := v, endAtLength := e }) =
        Except.ok v ↔
      e = true ∧ CHECK_PERIOD_MIN ≤ v ∧ v ≤ CHECK_PERIOD_MAX) ∧
    (parse_check_period (some { value := v, endAtLength := e }) =
        Except.ok v ∨
      parse_check_period (some { value := v, endAtLength := e }) =
        Except.error ()) := by
  refine ⟨rfl, rfl, rfl, rfl, ?_, ?_⟩
  · cases e <;>
      by_cases h : v < CHECK_PERIOD_MIN ∨ CHECK_PERIOD_MAX < v <;>
      simp [parse_check_period, CHECK_PERIOD_MIN, CHECK_PERIOD_MAX, h]
  · rcases Decidable.em
        (e = false ∨ v < CHECK_PERIOD_MIN ∨ CHECK_PERIOD_MAX < v) with h | h
    · right; simp [parse_check_period, h]
    · left; simp [parse_check_period, h]

/-- C9, witness: 50 is accepted as given, 0 is rejected. -/
theorem c9_witness :
    parse_check_period (some { value := 50, endAtLength := true }) =
      Except.ok 50 ∧
    parse_check_period (some { value := 0, endAtLength := true }) =
      Except.error () := by
  refine ⟨((c9_check_period 50 true).2.2.2.2.1).mpr (by decide), ?_⟩
  rcases (c9_check_period 0 true).2.2.2.2.2 with h | h
  · exact absurd (((c9_check_period 0 true).2.2.2.2.1).mp h) (by decide)
  · exact h

/-- C10: when the presence field cannot be read (`presentField = none`,
covering an unopenable state file and a missing/unparseable field),
`get_present` returns false, `get_charging_state` returns `CHST_NO_BAT`
rather than `CHST_INVALID`, and the poll cycle takes the `CHST_NO_BAT`
branch: `warnnum` is reset to 0, the shutdown flag ends false, and an
active shutdown is cancelled by spawning the stop-shutdown task. -/
theorem c10_present_read_failure (p : Int) (snap : Snapshot) (st : LoopState)
    (hp : snap.presentField = none) :
    get_present snap = false ∧
    get_charging_state snap = charging_state.CHST_NO_BAT ∧
    (cycle p snap st).1.warnnum = 0 ∧
    (cycle p snap st).1.shutdown_launched = false ∧
    (st.shutdown_launched = true →
      Event.spawnTask TaskKind.stopShutdownCmd ∈ (cycle p snap st).2) := by
  have h1 : get_present snap = false := by simp [get_present, hp]
  have h2 : get_charging_state snap = charging_state.CHST_NO_BAT := by
    simp [get_charging_state, h1]
  refine ⟨h1, h2, ?_, ?_, ?_⟩
  · simp only [cycle, h2]
    rfl
  · simp only [cycle, h2]
    exact flagAfter_stop_shutdown st.shutdown_launched
  · intro hf
    simp [cycle, h2, dispatch, hf, stop_shutdown_trace, emit_alert]

/-- C10, witness: a concrete snapshot with unreadable presence, polled while
a shutdown is active, resets the counter and spawns the cancel task. -/
theorem c10_witness :
    get_charging_state ⟨none, some "discharging", 100, 50⟩ =
      charging_state.CHST_NO_BAT ∧
    (cycle 10 ⟨none, some "discharging", 100, 50⟩
        ⟨charging_state.CHST_DISCHARGING, 5, true, ⟨true, 1⟩⟩).1.warnnum = 0 ∧
    Event.spawnTask TaskKind.stopShutdownCmd ∈
      (cycle 10 ⟨none, some "discharging", 100, 50⟩
        ⟨charging_state.CHST_DISCHARGING, 5, true, ⟨true, 1⟩⟩).2 :=
  ⟨(c10_present_read_failure 10 ⟨none, some "discharging", 100, 50⟩
      ⟨charging_state.CHST_DISCHARGING, 5, true, ⟨true, 1⟩⟩ rfl).2.1,
   (c10_present_read_failure 10 ⟨none, some "discharging", 100, 50⟩
      ⟨charging_state.CHST_DISCHARGING, 5, true, ⟨true, 1⟩⟩ rfl).2.2.1,
   (c10_present_read_failure 10 ⟨none, some "discharging", 100, 50⟩
      ⟨charging_state.CHST_DISCHARGING, 5, true, ⟨true, 1⟩⟩ rfl).2.2.2.2 rfl⟩

end BatteryMonitor
